import Mathlib

/-!
Verification of the Mergington High School activities API (`src/app.py`).

The registry of activities is an in-memory Python dict mapping an activity
name to a record; we embed it as an association list with first-match
lookup and first-match in-place update, which coincides with dict
semantics (dict keys are unique, `activities[name]` retrieves the one
record, and the record is mutated in place).  The two mutating endpoints
`signup_for_activity` and `unregister_from_activity` are embedded as pure
functions threading the registry state and returning either an error
(an `HTTPException` in the source) or a success message.
-/

set_option autoImplicit false

namespace Mergington

/-- An activity record, mirroring the dict values of `activities` in
`src/app.py`: description, schedule, maximum capacity and the ordered
list of participant emails. -/
structure Activity where
  description : String
  schedule : String
  max_participants : Nat
  participants : List String
  deriving Repr, DecidableEq

/-- The activity registry: a Python dict from activity name to record,
embedded as an association list with unique-key (first-match) access. -/
abbrev Registry : Type := List (String × Activity)

/-- Dict lookup `activities[activity_name]` / membership test
`activity_name in activities`: returns the first record stored under the
given name, if any. -/
def findActivity (reg : Registry) (name : String) : Option Activity :=
  match reg with
  | [] => none
  | (k, v) :: rest => if k = name then some v else findActivity rest name

/-- In-place mutation of the record stored under `name` (Python mutates
the record object retrieved by `activities[activity_name]`): the first
entry with the given key is replaced, all other entries and the order of
the dict are untouched. -/
def updateActivity (reg : Registry) (name : String) (f : Activity → Activity) : Registry :=
  match reg with
  | [] => []
  | (k, v) :: rest =>
      if k = name then (k, f v) :: rest else (k, v) :: updateActivity rest name f

/-- Python `list.remove(x)`: delete the first occurrence of `x` from the
list (the source only calls it after checking membership, so the
no-occurrence case never arises there). -/
def removeFirst (l : List String) (e : String) : List String :=
  match l with
  | [] => []
  | x :: xs => if x = e then xs else x :: removeFirst xs e

/-- The error taxonomy of the two registry endpoints: each variant is an
`HTTPException` raised in `src/app.py`. -/
inductive ApiError where
  | unauthorized
  | notFound
  | alreadyRegistered
  | notRegistered
  deriving Repr, DecidableEq

/-- The HTTP status code attached to each `HTTPException` in the source. -/
def statusCode : ApiError → Nat
  | .unauthorized => 401
  | .notFound => 404
  | .alreadyRegistered => 400
  | .notRegistered => 400

/-- Python truthiness of the `current_user : Optional[str]` value, as
tested by `if not current_user:`: `None` and the empty string are falsy. -/
def truthyUser : Option String → Bool
  | none => false
  | some s => s ≠ ""

/-- `get_current_user` from `src/app.py`: given the optional `session`
cookie and the set of teacher usernames loaded from `users.json`, return
`none` when the cookie is absent or falsy (`if not session`), the cookie
value verbatim when it is a key of the teachers table, and `none`
otherwise. -/
def get_current_user (session : Option String) (teachers : List String) : Option String :=
  match session with
  | none => none
  | some s =>
      if s = "" then none
      else if s ∈ teachers then some s
      else none

/-- `GET /activities` (`get_activities` in `src/app.py`): returns the
full registry unfiltered. -/
def get_activities (reg : Registry) : Registry := reg

/-- `POST /activities/{activity_name}/signup` (`signup_for_activity`):
checks, in source order, that a teacher is logged in (401), that the
activity exists (404) and that the email is not already signed up (400);
only then appends the email to the activity's participants and returns
the confirmation message.  The returned registry is the state after the
call. -/
def signup_for_activity (reg : Registry) (activity_name email : String)
    (current_user : Option String) : Registry × Except ApiError String :=
  if truthyUser current_user = false then
    (reg, .error .unauthorized)
  else
    match findActivity reg activity_name with
    | none => (reg, .error .notFound)
    | some activity =>
      if email ∈ activity.participants then
        (reg, .error .alreadyRegistered)
      else
        (updateActivity reg activity_name
            (fun a => { a with participants := a.participants ++ [email] }),
          .ok ("Signed up " ++ email ++ " for " ++ activity_name))

/-- `DELETE /activities/{activity_name}/unregister`
(`unregister_from_activity`): checks that the activity exists (404) and
that the email is signed up (400), then removes the first occurrence of
the email from the participants.  No session or user input is consulted:
the handler takes no authorization argument at all. -/
def unregister_from_activity (reg : Registry) (activity_name email : String) :
    Registry × Except ApiError String :=
  match findActivity reg activity_name with
  | none => (reg, .error .notFound)
  | some activity =>
      if email ∈ activity.participants then
        (updateActivity reg activity_name
            (fun a => { a with participants := removeFirst a.participants email }),
          .ok ("Unregistered " ++ email ++ " from " ++ activity_name))
      else
        (reg, .error .notRegistered)

/-- The Chess Club record of the initial database (named separately so
concrete scenarios can refer to it). -/
def chessClub : Activity :=
  { description := "Learn strategies and compete in chess tournaments"
    schedule := "Fridays, 3:30 PM - 5:00 PM"
    max_participants := 12
    participants := ["michael@mergington.edu", "daniel@mergington.edu"] }

/-- The initial in-memory activity database of `src/app.py`, with its
nine fixed entries in source order. -/
def activities : Registry :=
  [ ("Chess Club", chessClub),
    ("Programming Class",
      { description := "Learn programming fundamentals and build software projects"
        schedule := "Tuesdays and Thursdays, 3:30 PM - 4:30 PM"
        max_participants := 20
        participants := ["emma@mergington.edu", "sophia@mergington.edu"] }),
    ("Gym Class",
      { description := "Physical education and sports activities"
        schedule := "Mondays, Wednesdays, Fridays, 2:00 PM - 3:00 PM"
        max_participants := 30
        participants := ["john@mergington.edu", "olivia@mergington.edu"] }),
    ("Soccer Team",
      { description := "Join the school soccer team and compete in matches"
        schedule := "Tuesdays and Thursdays, 4:00 PM - 5:30 PM"
        max_participants := 22
        participants := ["liam@mergington.edu", "noah@mergington.edu"] }),
    ("Basketball Team",
      { description := "Practice and play basketball with the school team"
        schedule := "Wednesdays and Fridays, 3:30 PM - 5:00 PM"
        max_participants := 15
        participants := ["ava@mergington.edu", "mia@mergington.edu"] }),
    ("Art Club",
      { description := "Explore your creativity through painting and drawing"
        schedule := "Thursdays, 3:30 PM - 5:00 PM"
        max_participants := 15
        participants := ["amelia@mergington.edu", "harper@mergington.edu"] }),
    ("Drama Club",
      { description := "Act, direct, and produce plays and performances"
        schedule := "Mondays and Wednesdays, 4:00 PM - 5:30 PM"
        max_participants := 20
        participants := ["ella@mergington.edu", "scarlett@mergington.edu"] }),
    ("Math Club",
      { description := "Solve challenging problems and participate in math competitions"
        schedule := "Tuesdays, 3:30 PM - 4:30 PM"
        max_participants := 10
        participants := ["james@mergington.edu", "benjamin@mergington.edu"] }),
    ("Debate Team",
      { description := "Develop public speaking and argumentation skills"
        schedule := "Fridays, 4:00 PM - 5:30 PM"
        max_participants := 12
        participants := ["charlotte@mergington.edu", "henry@mergington.edu"] }) ]

/-- A one-activity registry whose single record is already over its
declared capacity (`max_participants = 0` with one participant), used to
exercise signup's absence of a capacity check. -/
def tinyClub : Activity :=
  { description := "Tiny"
    schedule := "never"
    max_participants := 0
    participants := ["a@mergington.edu"] }

/-- Registry holding only `tinyClub`. -/
def tinyRegistry : Registry := [("Tiny Club", tinyClub)]

/-- The participant-uniqueness invariant: every record of the registry
has a duplicate-free participants list. -/
def participantsUnique (reg : Registry) : Prop :=
  ∀ kv ∈ reg, kv.2.participants.Nodup

instance (reg : Registry) : Decidable (participantsUnique reg) :=
  inferInstanceAs (Decidable (∀ kv ∈ reg, kv.2.participants.Nodup))

/-! Helper lemmas about lookup, update and removal on the registry. -/

theorem findActivity_updateActivity_self (reg : Registry) (name : String)
    (f : Activity → Activity) :
    findActivity (updateActivity reg name f) name = (findActivity reg name).map f := by
  induction reg with
  | nil => rfl
  | cons kv rest ih =>
      obtain ⟨k, v⟩ := kv
      by_cases hk : k = name <;> simp [findActivity, updateActivity, hk, ih]

theorem updateActivity_of_findActivity_none (reg : Registry) (name : String)
    (f : Activity → Activity) (h : findActivity reg name = none) :
    updateActivity reg name f = reg := by
  induction reg with
  | nil => rfl
  | cons kv rest ih =>
      obtain ⟨k, v⟩ := kv
      by_cases hk : k = name
      · simp [findActivity, hk] at h
      · simp only [findActivity, hk, if_neg, if_false] at h
        simp [updateActivity, hk, ih h]

theorem updateActivity_id_of_fix (reg : Registry) (name : String)
    (f : Activity → Activity) (a : Activity)
    (hfind : findActivity reg name = some a) (hfix : f a = a) :
    updateActivity reg name f = reg := by
  induction reg with
  | nil => simp [findActivity] at hfind
  | cons kv rest ih =>
      obtain ⟨k, v⟩ := kv
      by_cases hk : k = name
      · simp only [findActivity, hk, if_pos, Option.some.injEq] at hfind
        simp [updateActivity, hk, hfind ▸ hfix]
      · simp only [findActivity, hk, if_neg, if_false] at hfind
        simp [updateActivity, hk, ih hfind]

theorem updateActivity_updateActivity (reg : Registry) (name : String)
    (f g : Activity → Activity) :
    updateActivity (updateActivity reg name f) name g
      = updateActivity reg name (fun a => g (f a)) := by
  induction reg with
  | nil => rfl
  | cons kv rest ih =>
      obtain ⟨k, v⟩ := kv
      by_cases hk : k = name <;> simp [updateActivity, hk, ih]

theorem removeFirst_append_singleton (l : List String) (e : String) (h : e ∉ l) :
    removeFirst (l ++ [e]) e = l := by
  induction l with
  | nil => simp [removeFirst]
  | cons x xs ih =>
      simp only [List.mem_cons, not_or] at h
      simp [removeFirst, Ne.symm h.1, ih h.2]

theorem mem_of_mem_removeFirst {l : List String} {e a : String}
    (h : a ∈ removeFirst l e) : a ∈ l := by
  induction l with
  | nil => simp [removeFirst] at h
  | cons x xs ih =>
      by_cases hx : x = e
      · simp only [removeFirst, hx, if_pos] at h
        exact List.mem_cons_of_mem _ h
      · simp only [removeFirst, hx, if_neg, if_false] at h
        rcases List.mem_cons.mp h with h | h
        · exact h ▸ List.mem_cons_self _ _
        · exact List.mem_cons_of_mem _ (ih h)

theorem nodup_removeFirst {l : List String} (e : String) (h : l.Nodup) :
    (removeFirst l e).Nodup := by
  induction l with
  | nil => simp [removeFirst]
  | cons x xs ih =>
      rcases List.nodup_cons.mp h with ⟨hx, hxs⟩
      by_cases hxe : x = e
      · simpa [removeFirst, hxe] using hxs
      · simp only [removeFirst, hxe, if_neg, if_false]
        exact List.nodup_cons.mpr ⟨fun hmem => hx (mem_of_mem_removeFirst hmem), ih hxs⟩

theorem findActivity_mem {reg : Registry} {name : String} {a : Activity}
    (h : findActivity reg name = some a) : (name, a) ∈ reg := by
  induction reg with
  | nil => simp [findActivity] at h
  | cons hd rest ih =>
      obtain ⟨k, v⟩ := hd
      by_cases hk : k = name
      · simp only [findActivity, hk, if_pos, Option.some.injEq] at h
        exact hk ▸ h ▸ List.mem_cons_self _ _
      · simp only [findActivity, hk, if_neg, if_false] at h
        exact List.mem_cons_of_mem _ (ih h)

theorem mem_updateActivity {reg : Registry} {name : String} {f : Activity → Activity}
    {kv : String × Activity} (h : kv ∈ updateActivity reg name f) :
    kv ∈ reg ∨ ∃ v, findActivity reg name = some v ∧ kv.2 = f v := by
  induction reg with
  | nil => simp [updateActivity] at h
  | cons hd rest ih =>
      obtain ⟨k, v⟩ := hd
      by_cases hk : k = name
      · simp only [updateActivity, hk, if_pos] at h
        rcases List.mem_cons.mp h with h | h
        · exact Or.inr ⟨v, by simp [findActivity, hk], by rw [h]⟩
        · exact Or.inl (List.mem_cons_of_mem _ h)
      · simp only [updateActivity, hk, if_neg, if_false] at h
        rcases List.mem_cons.mp h with h | h
        · exact Or.inl (h ▸ List.mem_cons_self _ _)
        · rcases ih h with h | ⟨w, hw, hkv⟩
          · exact Or.inl (List.mem_cons_of_mem _ h)
          · exact Or.inr ⟨w, by simp [findActivity, hk, hw], hkv⟩

/-! Claim theorems. -/

/-- C1: for every registry state, activity name and email, when the acting
user is absent (no resolved session), signup fails with Unauthorized,
whose status code is 401, and this holds regardless of whether the
activity exists or the email is already a participant (both are
universally quantified here, unconstrained). -/
theorem signup_without_session_unauthorized (reg : Registry) (activity_name email : String) :
    signup_for_activity reg activity_name email none
        = (reg, Except.error ApiError.unauthorized)
      ∧ statusCode ApiError.unauthorized = 401 :=
  ⟨rfl, rfl⟩

/-- C2: for every activity name that is not a key of the registry and every
email, signup with an authenticated acting user (a resolved session is
always a nonempty username) and unregister both fail with NotFound, whose
status code is 404. -/
theorem unknown_activity_notFound (reg : Registry) (activity_name email u : String)
    (hu : u ≠ "") (habs : findActivity reg activity_name = none) :
    signup_for_activity reg activity_name email (some u)
        = (reg, Except.error ApiError.notFound)
      ∧ unregister_from_activity reg activity_name email
        = (reg, Except.error ApiError.notFound)
      ∧ statusCode ApiError.notFound = 404 := by
  refine ⟨?_, ?_, rfl⟩
  · simp [signup_for_activity, truthyUser, hu, habs]
  · simp [unregister_from_activity, habs]

/-- Witness for C2 at a concrete input: "Quantum Club" is not in the
initial registry, so both operations return NotFound on it. -/
theorem unknown_activity_notFound_witness :
    signup_for_activity activities "Quantum Club" "x@mergington.edu" (some "principal")
        = (activities, Except.error ApiError.notFound)
      ∧ unregister_from_activity activities "Quantum Club" "x@mergington.edu"
        = (activities, Except.error ApiError.notFound)
      ∧ statusCode ApiError.notFound = 404 :=
  unknown_activity_notFound activities "Quantum Club" "x@mergington.edu" "principal"
    (by decide) (by decide)

/-- C8: the initial registry has exactly nine entries, and listing the
activities of the initial state yields a "Chess Club" entry whose
participants are exactly michael then daniel. -/
theorem initial_registry_nine_entries_chess_participants :
    (get_activities activities).length = 9
      ∧ (findActivity (get_activities activities) "Chess Club").map Activity.participants
        = some ["michael@mergington.edu", "daniel@mergington.edu"] :=
  ⟨rfl, by decide⟩

/-- C3: for every registry state, existing activity and email not yet in
its participants, an authenticated signup succeeds, and an immediately
repeated signup of the same email for the same activity fails with
AlreadyRegistered, whose status code is 400. -/
theorem signup_twice_rejected (reg : Registry) (activity_name email u : String) (a : Activity)
    (hu : u ≠ "") (hfind : findActivity reg activity_name = some a)
    (hmem : email ∉ a.participants) :
    (signup_for_activity reg activity_name email (some u)).2
        = Except.ok ("Signed up " ++ email ++ " for " ++ activity_name)
      ∧ (signup_for_activity (signup_for_activity reg activity_name email (some u)).1
            activity_name email (some u)).2
        = Except.error ApiError.alreadyRegistered
      ∧ statusCode ApiError.alreadyRegistered = 400 := by
  have hres : signup_for_activity reg activity_name email (some u)
      = (updateActivity reg activity_name
            (fun x => { x with participants := x.participants ++ [email] }),
          Except.ok ("Signed up " ++ email ++ " for " ++ activity_name)) := by
    simp [signup_for_activity, truthyUser, hu, hfind, hmem]
  refine ⟨by rw [hres], ?_, rfl⟩
  have hfind1 : findActivity (signup_for_activity reg activity_name email (some u)).1
      activity_name = some { a with participants := a.participants ++ [email] } := by
    rw [hres]
    simp [findActivity_updateActivity_self, hfind]
  have hmem1 : email ∈ ({ a with participants := a.participants ++ [email] } : Activity).participants := by
    simp
  have hgen : ∀ (r : Registry) (b : Activity), findActivity r activity_name = some b →
      email ∈ b.participants →
      (signup_for_activity r activity_name email (some u)).2
        = Except.error ApiError.alreadyRegistered := by
    intro r b hb hmemb
    simp [signup_for_activity, truthyUser, hu, hb, hmemb]
  exact hgen _ _ hfind1 hmem1

/-- Witness for C3 at a concrete input: signing up a new email for
"Chess Club" twice gives success then AlreadyRegistered. -/
theorem signup_twice_rejected_witness :
    (signup_for_activity activities "Chess Club" "new@mergington.edu" (some "teacher")).2
        = Except.ok ("Signed up " ++ "new@mergington.edu" ++ " for " ++ "Chess Club")
      ∧ (signup_for_activity
            (signup_for_activity activities "Chess Club" "new@mergington.edu" (some "teacher")).1
            "Chess Club" "new@mergington.edu" (some "teacher")).2
        = Except.error ApiError.alreadyRegistered
      ∧ statusCode ApiError.alreadyRegistered = 400 :=
  signup_twice_rejected activities "Chess Club" "new@mergington.edu" "teacher" chessClub
    (by decide) (by decide) (by decide)

/-- C4: for every registry state, existing activity and email not in its
participants, an authenticated signup succeeds with the confirmation
message, and the activity's new participants list is the old one with the
email appended at the end.  No hypothesis about `max_participants`
appears: the result holds even when the list is already at or over
capacity, because the source performs no capacity check. -/
theorem signup_appends_email (reg : Registry) (activity_name email u : String) (a : Activity)
    (hu : u ≠ "") (hfind : findActivity reg activity_name = some a)
    (hmem : email ∉ a.participants) :
    (signup_for_activity reg activity_name email (some u)).2
        = Except.ok ("Signed up " ++ email ++ " for " ++ activity_name)
      ∧ findActivity (signup_for_activity reg activity_name email (some u)).1 activity_name
        = some { a with participants := a.participants ++ [email] } := by
  have hres : signup_for_activity reg activity_name email (some u)
      = (updateActivity reg activity_name
            (fun x => { x with participants := x.participants ++ [email] }),
          Except.ok ("Signed up " ++ email ++ " for " ++ activity_name)) := by
    simp [signup_for_activity, truthyUser, hu, hfind, hmem]
  refine ⟨by rw [hres], ?_⟩
  rw [hres]
  simp [findActivity_updateActivity_self, hfind]

/-- Witness for C4 at a concrete input already over capacity:
`tinyClub` has `max_participants = 0` but one participant, and signup
still succeeds and appends. -/
theorem signup_appends_email_witness :
    tinyClub.max_participants ≤ tinyClub.participants.length
      ∧ ((signup_for_activity tinyRegistry "Tiny Club" "b@mergington.edu" (some "teacher")).2
          = Except.ok ("Signed up " ++ "b@mergington.edu" ++ " for " ++ "Tiny Club")
        ∧ findActivity
            (signup_for_activity tinyRegistry "Tiny Club" "b@mergington.edu" (some "teacher")).1
            "Tiny Club"
          = some { tinyClub with participants := tinyClub.participants ++ ["b@mergington.edu"] }) :=
  ⟨by decide,
    signup_appends_email tinyRegistry "Tiny Club" "b@mergington.edu" "teacher" tinyClub
      (by decide) (by decide) (by decide)⟩

/-- C5: for every registry state, existing activity and email not in its
participants, an authenticated signup of that email followed by an
unregister of the same email for the same activity restores the whole
registry exactly — the activity's participants return to their pre-signup
value in content and order, and every other entry is unchanged. -/
theorem signup_unregister_roundtrip (reg : Registry) (activity_name email u : String)
    (a : Activity) (hu : u ≠ "") (hfind : findActivity reg activity_name = some a)
    (hmem : email ∉ a.participants) :
    (unregister_from_activity
        (signup_for_activity reg activity_name email (some u)).1 activity_name email).1
      = reg := by
  have hres : (signup_for_activity reg activity_name email (some u)).1
      = updateActivity reg activity_name
          (fun x => { x with participants := x.participants ++ [email] }) := by
    simp [signup_for_activity, truthyUser, hu, hfind, hmem]
  rw [hres]
  have hfind1 : findActivity
      (updateActivity reg activity_name
        (fun x => { x with participants := x.participants ++ [email] })) activity_name
      = some { a with participants := a.participants ++ [email] } := by
    simp [findActivity_updateActivity_self, hfind]
  have hmem1 : email ∈ ({ a with participants := a.participants ++ [email] } : Activity).participants := by
    simp
  simp only [unregister_from_activity, hfind1, hmem1, if_pos]
  rw [updateActivity_updateActivity]
  exact updateActivity_id_of_fix reg activity_name _ a hfind
    (by simp [removeFirst_append_singleton a.participants email hmem])

/-- Witness for C5 at a concrete input: signing up then unregistering a
new email for "Chess Club" restores the initial registry exactly. -/
theorem signup_unregister_roundtrip_witness :
    (unregister_from_activity
        (signup_for_activity activities "Chess Club" "roundtrip@mergington.edu" (some "teacher")).1
        "Chess Club" "roundtrip@mergington.edu").1
      = activities :=
  signup_unregister_roundtrip activities "Chess Club" "roundtrip@mergington.edu" "teacher"
    chessClub (by decide) (by decide) (by decide)

/-- C6: for every registry state, existing activity and email present in
its participants, unregister succeeds and removes (the first occurrence
of) that email.  The embedded handler, like the source route, takes no
session or user input whatsoever — no authorization check exists, so
success needs no cookie. -/
theorem unregister_succeeds_without_auth (reg : Registry) (activity_name email : String)
    (a : Activity) (hfind : findActivity reg activity_name = some a)
    (hmem : email ∈ a.participants) :
    (unregister_from_activity reg activity_name email).2
        = Except.ok ("Unregistered " ++ email ++ " from " ++ activity_name)
      ∧ findActivity (unregister_from_activity reg activity_name email).1 activity_name
        = some { a with participants := removeFirst a.participants email } := by
  have hres : unregister_from_activity reg activity_name email
      = (updateActivity reg activity_name
            (fun x => { x with participants := removeFirst x.participants email }),
          Except.ok ("Unregistered " ++ email ++ " from " ++ activity_name)) := by
    simp [unregister_from_activity, hfind, hmem]
  refine ⟨by rw [hres], ?_⟩
  rw [hres]
  simp [findActivity_updateActivity_self, hfind]

/-- Witness for C6: the spec scenario — unregistering michael from
"Chess Club" with no cookie at all (the handler has no such input)
succeeds on the initial registry. -/
theorem unregister_succeeds_without_auth_witness :
    (unregister_from_activity activities "Chess Club" "michael@mergington.edu").2
        = Except.ok ("Unregistered " ++ "michael@mergington.edu" ++ " from " ++ "Chess Club")
      ∧ findActivity
          (unregister_from_activity activities "Chess Club" "michael@mergington.edu").1
          "Chess Club"
        = some { chessClub with
            participants := removeFirst chessClub.participants "michael@mergington.edu" } :=
  unregister_succeeds_without_auth activities "Chess Club" "michael@mergington.edu" chessClub
    (by decide) (by decide)

/-- C7 counterexample: the claim as stated fails at cookie value `""`
with a credential table containing the empty-string username: the value
is a key of the table, yet the resolver returns `none` rather than the
cookie value verbatim, because the source tests Python truthiness
(`if not session`) before the table lookup. -/
theorem get_current_user_verbatim_counterexample :
    "" ∈ [""] ∧ get_current_user (some "") [""] ≠ some "" := by
  decide

/-- C7 (amended): the resolver returns none when no cookie is present;
when a cookie is present it returns the value verbatim if the value is
nonempty and a key of the teachers table, and none otherwise — a
present-but-empty cookie value yields none even when the empty string is
a key of the table. -/
theorem get_current_user_characterization (session : Option String) (teachers : List String) :
    (session = none → get_current_user session teachers = none)
      ∧ (∀ s, session = some s → s ≠ "" → s ∈ teachers →
          get_current_user session teachers = some s)
      ∧ (∀ s, session = some s → (s = "" ∨ s ∉ teachers) →
          get_current_user session teachers = none) := by
  refine ⟨fun h => by simp [h, get_current_user], ?_, ?_⟩
  · intro s hs hne hmem
    simp [hs, get_current_user, hne, hmem]
  · intro s hs hcase
    rcases hcase with hempty | hnot
    · simp [hs, get_current_user, hempty]
    · rcases eq_or_ne s "" with hempty | hne
      · simp [hs, get_current_user, hempty]
      · simp [hs, get_current_user, hne, hnot]

/-- Witness for the amended C7 at concrete inputs: a nonempty cookie
that is a known teacher username resolves verbatim. -/
theorem get_current_user_characterization_witness :
    get_current_user (some "alice") ["alice"] = some "alice" :=
  (get_current_user_characterization (some "alice") ["alice"]).2.1 "alice" rfl
    (by decide) (by decide)

/-- C9: participant uniqueness is an invariant — the initial registry has
duplicate-free participants in every record, and every signup and every
unregister call (whatever its outcome) preserves this property. -/
theorem participant_uniqueness_invariant :
    participantsUnique activities
      ∧ (∀ (reg : Registry) (activity_name email : String) (user : Option String),
          participantsUnique reg →
          participantsUnique (signup_for_activity reg activity_name email user).1)
      ∧ (∀ (reg : Registry) (activity_name email : String),
          participantsUnique reg →
          participantsUnique (unregister_from_activity reg activity_name email).1) := by
  refine ⟨by decide, ?_, ?_⟩
  · intro reg activity_name email user hreg
    by_cases hu : truthyUser user = false
    · simpa [signup_for_activity, hu] using hreg
    · cases hfind : findActivity reg activity_name with
      | none => simpa [signup_for_activity, hu, hfind] using hreg
      | some a =>
          by_cases hmem : email ∈ a.participants
          · simpa [signup_for_activity, hu, hfind, hmem] using hreg
          · have hres : (signup_for_activity reg activity_name email user).1
                = updateActivity reg activity_name
                    (fun x => { x with participants := x.participants ++ [email] }) := by
              simp [signup_for_activity, hu, hfind, hmem]
            rw [hres]
            intro kv hkv
            rcases mem_updateActivity hkv with h | ⟨v, hv, hkv2⟩
            · exact hreg kv h
            · rw [hfind] at hv
              cases Option.some.injEq .. ▸ hv with
              | refl =>
                  rw [hkv2]
                  simpa [List.nodup_append] using
                    ⟨hreg (activity_name, a) (findActivity_mem hfind), hmem⟩
  · intro reg activity_name email hreg
    cases hfind : findActivity reg activity_name with
    | none => simpa [unregister_from_activity, hfind] using hreg
    | some a =>
        by_cases hmem : email ∈ a.participants
        · have hres : (unregister_from_activity reg activity_name email).1
              = updateActivity reg activity_name
                  (fun x => { x with participants := removeFirst x.participants email }) := by
            simp [unregister_from_activity, hfind, hmem]
          rw [hres]
          intro kv hkv
          rcases mem_updateActivity hkv with h | ⟨v, hv, hkv2⟩
          · exact hreg kv h
          · rw [hfind] at hv
            cases Option.some.injEq .. ▸ hv with
            | refl =>
                rw [hkv2]
                exact nodup_removeFirst email (hreg (activity_name, a) (findActivity_mem hfind))
        · simpa [unregister_from_activity, hfind, hmem] using hreg

/-- Witness for C9 at concrete inputs: the initial registry satisfies the
invariant, and it is preserved by a concrete successful signup. -/
theorem participant_uniqueness_invariant_witness :
    participantsUnique
      (signup_for_activity activities "Chess Club" "unique@mergington.edu" (some "teacher")).1 :=
  participant_uniqueness_invariant.2.1 activities "Chess Club" "unique@mergington.edu"
    (some "teacher") (by decide)

/-- C10: failure atomicity — whenever signup or unregister returns any
error, the registry it returns is exactly the registry it was given:
every check precedes the single mutation, so no failing call modifies any
participants list. -/
theorem failing_calls_leave_registry_unchanged (reg : Registry) (activity_name email : String) :
    (∀ (user : Option String) (e : ApiError),
        (signup_for_activity reg activity_name email user).2 = Except.error e →
        (signup_for_activity reg activity_name email user).1 = reg)
      ∧ (∀ e : ApiError,
          (unregister_from_activity reg activity_name email).2 = Except.error e →
          (unregister_from_activity reg activity_name email).1 = reg) := by
  constructor
  · intro user e herr
    by_cases hu : truthyUser user = false
    · simp [signup_for_activity, hu]
    · cases hfind : findActivity reg activity_name with
      | none => simp [signup_for_activity, hu, hfind]
      | some a =>
          by_cases hmem : email ∈ a.participants
          · simp [signup_for_activity, hu, hfind, hmem]
          · simp [signup_for_activity, hu, hfind, hmem] at herr
  · intro e herr
    cases hfind : findActivity reg activity_name with
    | none => simp [unregister_from_activity, hfind]
    | some a =>
        by_cases hmem : email ∈ a.participants
        · simp [unregister_from_activity, hfind, hmem] at herr
        · simp [unregister_from_activity, hfind, hmem]

/-- Witness for C10 at a concrete failing input: an unauthenticated
signup attempt on "Chess Club" fails and leaves the initial registry
unchanged. -/
theorem failing_calls_leave_registry_unchanged_witness :
    (signup_for_activity activities "Chess Club" "michael@mergington.edu" none).1 = activities :=
  (failing_calls_leave_registry_unchanged activities "Chess Club" "michael@mergington.edu").1
    none ApiError.unauthorized rfl

end Mergington
